import Mathlib

/-!
Verification of the cloudmcp bridging-and-signing layer: a shallow
embedding of the AWS API Gateway ↔ MCP JSON-RPC gateway
(internal/gateway/gateway.go, internal/gateway/apigw.go) and of the two
authenticated client transports (pkg/auth/apikey.go and the IAM signing
transport).  Bodies are modelled as lists of byte values (Nat < 256);
Go strings carrying bytes are converted with `asciiBytes`.
-/

deriving instance DecidableEq for Except

namespace CloudMCP

/-- Byte view of a Go string (one byte per character; all strings involved
in the verified properties are ASCII). -/
def asciiBytes (s : String) : List Nat :=
  s.data.map Char.toNat

/-! ### Base64 (encoding/base64): StdEncoding decode and RawStdEncoding encode -/

/-- Value of a character in the standard base64 alphabet, or `none`. -/
def b64val (c : Char) : Option Nat :=
  let n := c.toNat
  if 65 ≤ n ∧ n ≤ 90 then some (n - 65)
  else if 97 ≤ n ∧ n ≤ 122 then some (n - 97 + 26)
  else if 48 ≤ n ∧ n ≤ 57 then some (n - 48 + 52)
  else if n = 43 then some 62
  else if n = 47 then some 63
  else none

/-- Character of a 6-bit value in the standard base64 alphabet. -/
def b64chr (n : Nat) : Char :=
  if n < 26 then Char.ofNat (65 + n)
  else if n < 52 then Char.ofNat (97 + (n - 26))
  else if n < 62 then Char.ofNat (48 + (n - 52))
  else if n = 62 then Char.ofNat 43
  else Char.ofNat 47

/-- Decode a standard (padded) base64 character stream into bytes, as
Go's `base64.NewDecoder(base64.StdEncoding, _)` yields them when read to
completion; `none` models the decoder surfacing a `CorruptInputError`. -/
def b64decodeChars : List Char → Option (List Nat)
  | [] => some []
  | [c1, c2, '=', '='] => do
      let v1 ← b64val c1
      let v2 ← b64val c2
      pure [v1 * 4 + v2 / 16]
  | [c1, c2, c3, '='] => do
      let v1 ← b64val c1
      let v2 ← b64val c2
      let v3 ← b64val c3
      pure [v1 * 4 + v2 / 16, v2 % 16 * 16 + v3 / 4]
  | c1 :: c2 :: c3 :: c4 :: rest => do
      let v1 ← b64val c1
      let v2 ← b64val c2
      let v3 ← b64val c3
      let v4 ← b64val c4
      let tl ← b64decodeChars rest
      pure ([v1 * 4 + v2 / 16, v2 % 16 * 16 + v3 / 4, v3 % 4 * 64 + v4] ++ tl)
  | _ => none

/-- Decode a Go string in standard padded base64 to bytes. -/
def b64decodeStd (s : String) : Option (List Nat) :=
  b64decodeChars s.data

/-- Encode bytes in unpadded standard base64, as Go's
`base64.RawStdEncoding.EncodeToString`. -/
def b64encodeRawStd : List Nat → List Char
  | [] => []
  | [b1] => [b64chr (b1 / 4), b64chr (b1 % 4 * 16)]
  | [b1, b2] => [b64chr (b1 / 4), b64chr (b1 % 4 * 16 + b2 / 16), b64chr (b2 % 16 * 4)]
  | b1 :: b2 :: b3 :: rest =>
      [b64chr (b1 / 4), b64chr (b1 % 4 * 16 + b2 / 16),
       b64chr (b2 % 16 * 4 + b3 / 64), b64chr (b3 % 64)] ++ b64encodeRawStd rest

/-- String form of the unpadded standard base64 encoding. -/
def base64RawStdEncodeToString (bs : List Nat) : String :=
  String.mk (b64encodeRawStd bs)

/-! ### MIME header keys and multi-value header maps (net/http, net/textproto) -/

/-- Whether a byte is a valid header-field token byte (net/textproto). -/
def validHeaderFieldByte (n : Nat) : Bool :=
  (48 ≤ n ∧ n ≤ 57) ∨ (65 ≤ n ∧ n ≤ 90) ∨ (97 ≤ n ∧ n ≤ 122) ∨
  n = 33 ∨ (35 ≤ n ∧ n ≤ 39) ∨ n = 42 ∨ n = 43 ∨ n = 45 ∨ n = 46 ∨
  n = 94 ∨ n = 95 ∨ n = 96 ∨ n = 124 ∨ n = 126

/-- Recase one character for MIME canonicalization: uppercase after a
hyphen or at the start, lowercase otherwise. -/
def mimeRecase : Bool → List Char → List Char
  | _, [] => []
  | up, c :: rest =>
      let c' := if up then c.toUpper else c.toLower
      c' :: mimeRecase (c = '-') rest

/-- Canonical MIME header key (textproto.CanonicalMIMEHeaderKey): recased
when every byte is a valid token byte, returned unchanged otherwise. -/
def canonicalMIMEHeaderKey (s : String) : String :=
  if s.data.all (fun c => validHeaderFieldByte c.toNat) then
    String.mk (mimeRecase true s.data)
  else s

/-- Append `v` under key `k` in an association list of multi-value
headers (underlying map operation of http.Header.Add). -/
def addAssoc : List (String × List String) → String → String → List (String × List String)
  | [], k, v => [(k, [v])]
  | (k', vs) :: rest, k, v =>
      if k' = k then (k', vs ++ [v]) :: rest else (k', vs) :: addAssoc rest k v

/-- Look up the values under key `k` in an association list. -/
def getAssoc : List (String × List String) → String → List String
  | [], _ => []
  | (k', vs) :: rest, k => if k' = k then vs else getAssoc rest k

/-- http.Header.Add: canonicalize the key, then append the value. -/
def headerAdd (h : List (String × List String)) (k v : String) : List (String × List String) :=
  addAssoc h (canonicalMIMEHeaderKey k) v

/-- http.Header.Values-style lookup under the canonical key. -/
def headerGet (h : List (String × List String)) (k : String) : List String :=
  getAssoc h (canonicalMIMEHeaderKey k)

/-! ### SHA-256 (crypto/sha256) over byte lists, words as Nat mod 2^32 -/

/-- Truncate to a 32-bit word. -/
def w32 (n : Nat) : Nat := n % 4294967296

/-- Right rotation of a 32-bit word by `n` bits. -/
def rotr32 (n x : Nat) : Nat := x / 2 ^ n + x * 2 ^ (32 - n) % 4294967296

/-- Bitwise complement of a 32-bit word. -/
def not32 (x : Nat) : Nat := 4294967295 ^^^ x

/-- SHA-256 choice function. -/
def shaCh (x y z : Nat) : Nat := (x &&& y) ^^^ (not32 x &&& z)

/-- SHA-256 majority function. -/
def shaMaj (x y z : Nat) : Nat := (x &&& y) ^^^ (x &&& z) ^^^ (y &&& z)

/-- SHA-256 Σ0. -/
def bigSigma0 (x : Nat) : Nat := rotr32 2 x ^^^ rotr32 13 x ^^^ rotr32 22 x

/-- SHA-256 Σ1. -/
def bigSigma1 (x : Nat) : Nat := rotr32 6 x ^^^ rotr32 11 x ^^^ rotr32 25 x

/-- SHA-256 σ0. -/
def smallSigma0 (x : Nat) : Nat := rotr32 7 x ^^^ rotr32 18 x ^^^ x / 2 ^ 3

/-- SHA-256 σ1. -/
def smallSigma1 (x : Nat) : Nat := rotr32 17 x ^^^ rotr32 19 x ^^^ x / 2 ^ 10

/-- SHA-256 round constants (decimal). -/
def shaK : List Nat :=
  [1116352408, 1899447441, 3049323471, 3921009573,
   961987163, 1508970993, 2453635748, 2870763221,
   3624381080, 310598401, 607225278, 1426881987,
   1925078388, 2162078206, 2614888103, 3248222580,
   3835390401, 4022224774, 264347078, 604807628,
   770255983, 1249150122, 1555081692, 1996064986,
   2554220882, 2821834349, 2952996808, 3210313671,
   3336571891, 3584528711, 113926993, 338241895,
   666307205, 773529912, 1294757372, 1396182291,
   1695183700, 1986661051, 2177026350, 2456956037,
   2730485921, 2820302411, 3259730800, 3345764771,
   3516065817, 3600352804, 4094571909, 275423344,
   430227734, 506948616, 659060556, 883997877,
   958139571, 1322822218, 1537002063, 1747873779,
   1955562222, 2024104815, 2227730452, 2361852424,
   2428436474, 2756734187, 3204031479, 3329325298]

/-- SHA-256 initial hash value (decimal). -/
def shaH0 : List Nat :=
  [1779033703, 3144134277, 1013904242, 2773480762,
   1359893119, 2600822924, 528734635, 1541459225]

/-- A natural number as `n` big-endian bytes. -/
def beBytes : Nat → Nat → List Nat
  | 0, _ => []
  | k + 1, v => v / 256 ^ k % 256 :: beBytes k v

/-- SHA-256 message padding: append 0x80, zeros to 56 mod 64, then the
bit length as 8 big-endian bytes. -/
def sha256pad (msg : List Nat) : List Nat :=
  let z := (55 + 64 - msg.length % 64) % 64
  msg ++ [128] ++ List.replicate z 0 ++ beBytes 8 (msg.length * 8)

/-- Accumulate elements into chunks of `n`, carrying the current chunk. -/
def chunkAux (n : Nat) : List Nat → List Nat → List (List Nat)
  | [], cur => if cur = [] then [] else [cur]
  | b :: rest, cur =>
      if cur.length + 1 = n then (cur ++ [b]) :: chunkAux n rest []
      else chunkAux n rest (cur ++ [b])

/-- Split a list into chunks of `n` elements (`n > 0`). -/
def chunksOf (n : Nat) (l : List Nat) : List (List Nat) :=
  if n = 0 then [] else chunkAux n l []

/-- Four big-endian bytes as one 32-bit word. -/
def wordOfBytes (bs : List Nat) : Nat :=
  bs.foldl (fun acc b => acc * 256 + b) 0

/-- Extend the 16-word message schedule by `n` further words. -/
def extendSchedule : Nat → List Nat → List Nat
  | 0, ws => ws
  | n + 1, ws =>
      let t := ws.length
      let w := w32 (smallSigma1 (ws.getD (t - 2) 0) + ws.getD (t - 7) 0 +
                    smallSigma0 (ws.getD (t - 15) 0) + ws.getD (t - 16) 0)
      extendSchedule n (ws ++ [w])

/-- One SHA-256 compression round on state `[a,b,c,d,e,f,g,h]`. -/
def shaRound (st : List Nat) (kw : Nat × Nat) : List Nat :=
  let a := st.getD 0 0
  let b := st.getD 1 0
  let c := st.getD 2 0
  let d := st.getD 3 0
  let e := st.getD 4 0
  let f := st.getD 5 0
  let g := st.getD 6 0
  let h := st.getD 7 0
  let t1 := w32 (h + bigSigma1 e + shaCh e f g + kw.1 + kw.2)
  let t2 := w32 (bigSigma0 a + shaMaj a b c)
  [w32 (t1 + t2), a, b, c, w32 (d + t1), e, f, g]

/-- Process one 64-byte block into the running hash. -/
def sha256Block (hs : List Nat) (block : List Nat) : List Nat :=
  let ws := extendSchedule 48 ((chunksOf 4 block).map wordOfBytes)
  let st := (shaK.zip ws).foldl shaRound hs
  List.zipWith (fun h v => w32 (h + v)) hs st

/-- SHA-256 digest of a byte list, as 32 bytes. -/
def sha256 (msg : List Nat) : List Nat :=
  ((chunksOf 64 (sha256pad msg)).foldl sha256Block shaH0).foldr
    (fun w acc => beBytes 4 w ++ acc) []

/-- Lowercase hex digit. -/
def hexDigit (n : Nat) : Char :=
  if n < 10 then Char.ofNat (48 + n) else Char.ofNat (87 + n)

/-- Lowercase hex string of a byte list (encoding/hex.EncodeToString). -/
def hexEncodeToString (bs : List Nat) : String :=
  String.mk (bs.foldr (fun b acc => hexDigit (b / 16) :: hexDigit (b % 16) :: acc) [])

/-- SHA-256 digest as a lowercase hex string. -/
def sha256hex (msg : List Nat) : String :=
  hexEncodeToString (sha256 msg)

/-- Replace-or-insert for single-valued header maps (http.Header.Set
restricted to the single-value view used by the request adapter). -/
def setAssoc : List (String × String) → String → String → List (String × String)
  | [], k, v => [(k, v)]
  | (k', v') :: rest, k, v =>
      if k' = k then (k, v) :: rest else (k', v') :: setAssoc rest k v

/-- http.Header.Set on a single-value view: canonical key, last write wins. -/
def headerSet (h : List (String × String)) (k v : String) : List (String × String) :=
  setAssoc h (canonicalMIMEHeaderKey k) v

/-! ### internal/gateway: data model (aws-lambda-go events) -/

/-- events.APIGatewayProxyRequest, restricted to the fields the gateway
reads. -/
structure APIGatewayProxyRequest where
  httpMethod : String
  path : String
  headers : List (String × String)
  queryStringParameters : List (String × String)
  body : String
  isBase64Encoded : Bool
deriving Repr, DecidableEq

/-- events.APIGatewayProxyResponse; Go zero values for the fields the
gateway never sets. -/
structure APIGatewayProxyResponse where
  statusCode : Int
  headers : List (String × String)
  multiValueHeaders : List (String × List String)
  body : String
  isBase64Encoded : Bool
deriving Repr, DecidableEq

/-! ### internal/gateway/apigw.go: request adapter and response writer -/

/-- Bytes produced by reading `requestBody(r)` to completion: the raw
body bytes, or — when `isBase64Encoded` is set — the output of the
streaming standard base64 decoder, whose read fails on corrupt input
(modelled as `Except.error`). -/
def requestBody (r : APIGatewayProxyRequest) : Except String (List Nat) :=
  if r.isBase64Encoded then
    match b64decodeStd r.body with
    | some bs => .ok bs
    | none => .error "illegal base64 data"
  else .ok (asciiBytes r.body)

/-- The http.Request produced by NewHttpRequest, with the body replaced
by the result of reading it to completion. -/
structure HttpRequest where
  method : String
  path : String
  header : List (String × String)
  query : List (String × String)
  bodyRead : Except String (List Nat)
deriving Repr, DecidableEq

/-- NewHttpRequest: build the handler request from the event.
`parseOK` abstracts http.NewRequestWithContext's method/URL validation
(library code outside this repository); on `false` the constructor
returns the library error and no request.  Headers are copied with
Set (last write wins), query parameters are copied from the event
(url.Values re-encoding is not modelled; no verified property reads it). -/
def NewHttpRequest (parseOK : String → String → Bool)
    (r : APIGatewayProxyRequest) : Option HttpRequest :=
  if parseOK r.httpMethod r.path then
    some { method := r.httpMethod
           path := r.path
           header := r.headers.foldl (fun h kv => headerSet h kv.1 kv.2) []
           query := r.queryStringParameters
           bodyRead := requestBody r }
  else none

/-- Response writer state (struct `writer` in apigw.go). -/
structure writer where
  code : Int
  head : List (String × List String)
  wbuf : String
deriving Repr, DecidableEq

/-- NewHttpResponse: zero status, empty header map, empty buffer. -/
def NewHttpResponse : writer := { code := 0, head := [], wbuf := "" }

/-- One operation a handler may perform on the response writer:
WriteHeader, Header().Add, or Write. -/
inductive WOp where
  | writeHeader (statusCode : Int)
  | addHeader (key value : String)
  | write (chunk : String)
deriving Repr, DecidableEq

/-- Effect of one writer operation. -/
def applyOp (w : writer) : WOp → writer
  | .writeHeader c => { w with code := c }
  | .addHeader k v => { w with head := headerAdd w.head k v }
  | .write s => { w with wbuf := w.wbuf ++ s }

/-- Effect of a sequence of writer operations. -/
def applyOps (ops : List WOp) (w : writer) : writer :=
  ops.foldl applyOp w

/-- writer.Value(): finalize into an APIGatewayProxyResponse; a zero
status code becomes 200. -/
def writer.Value (w : writer) : APIGatewayProxyResponse :=
  { statusCode := if w.code ≠ 0 then w.code else 200
    headers := []
    multiValueHeaders := w.head
    body := w.wbuf
    isBase64Encoded := false }

/-! ### internal/gateway/gateway.go: Gateway.Serve and Gateway.serveCtrl

The controller capability (`ctrl.ServeHTTP`) is modelled as the sequence
of writer operations the handler performs on the responder for a given
request; the JSON-RPC envelope decoder (`jsonrpc.DecodeMessage`, owned
externally) as a function from the body string to `Except E M`.  Serve
and serveCtrl additionally return a trace: the bodies handed to the
decoder and the requests handed to the handler capability. -/

/-- Errors Serve can surface: the decoder's error, or the request
constructor's error. -/
inductive GwErr (E : Type) where
  | protocolDecode (e : E)
  | construction (msg : String)
deriving Repr, DecidableEq

/-- Invocation trace of one Serve call. -/
structure ServeTrace where
  decodeCalls : List String
  ctrlCalls : List HttpRequest
deriving Repr, DecidableEq

variable {E M : Type}

/-- Gateway.serveCtrl: build the request, run the handler against a
fresh writer, finalize.  Returns the outcome and the requests the
handler capability received. -/
def serveCtrl (parseOK : String → String → Bool) (ctrl : HttpRequest → List WOp)
    (r : APIGatewayProxyRequest) :
    Except String APIGatewayProxyResponse × List HttpRequest :=
  match NewHttpRequest parseOK r with
  | none => (.error "bad http request", [])
  | some input =>
      let reply := applyOps (ctrl input) NewHttpResponse
      (.ok reply.Value, [input])

/-- Gateway.Serve: reject GET with a bare 405; delegate an empty body
directly; otherwise decode the body as a JSON-RPC envelope, abort on
failure, and delegate the unaltered event on success. -/
def Serve (decode : String → Except E M) (parseOK : String → String → Bool)
    (ctrl : HttpRequest → List WOp) (r : APIGatewayProxyRequest) :
    Except (GwErr E) APIGatewayProxyResponse × ServeTrace :=
  if r.httpMethod = "GET" then
    (.ok { statusCode := 405, headers := [], multiValueHeaders := [],
           body := "", isBase64Encoded := false },
     { decodeCalls := [], ctrlCalls := [] })
  else if r.body.length = 0 then
    let (res, calls) := serveCtrl parseOK ctrl r
    (res.mapError GwErr.construction, { decodeCalls := [], ctrlCalls := calls })
  else
    match decode r.body with
    | .error e => (.error (.protocolDecode e), { decodeCalls := [r.body], ctrlCalls := [] })
    | .ok _ =>
        let (res, calls) := serveCtrl parseOK ctrl r
        (res.mapError GwErr.construction, { decodeCalls := [r.body], ctrlCalls := calls })

/-! ### pkg/auth: outbound request model shared by both transports -/

/-- An outbound http.Request as the transports observe it: method, URL
path, multi-value headers, and a body stream.  `body = none` models
`req.Body == nil`; `some (.error e)` a body whose read fails; `some
(.ok bs)` a body whose full read yields `bs`. -/
structure OutRequest where
  method : String
  path : String
  header : List (String × List String)
  body : Option (Except String (List Nat))
deriving Repr, DecidableEq

/-! ### pkg/auth/apikey.go: shared-secret (API-key) transport -/

/-- ConfigApiKey: endpoint URL and the access/secret pair.  The optional
custom client only selects the inner round tripper and is abstracted by
the `socket` parameter of the round trip. -/
structure ConfigApiKey where
  url : String
  access : String
  secret : String
deriving Repr, DecidableEq

/-- The state `NewTransportApiKey` installs in the returned transport:
the endpoint and the digest computed once at construction. -/
structure apikeyTransport where
  endpoint : String
  digest : String
deriving Repr, DecidableEq

/-- NewTransportApiKey: fail on an empty URL, otherwise precompute
`base64raw(access ++ ":" ++ secret)` and return the transport. -/
def NewTransportApiKey (spec : ConfigApiKey) : Except String apikeyTransport :=
  if spec.url.length = 0 then .error "missing URL config"
  else .ok { endpoint := spec.url
             digest := base64RawStdEncodeToString (asciiBytes (spec.access ++ ":" ++ spec.secret)) }

/-- apikeyTransport.RoundTrip: add the precomputed digest as a Basic
Authorization header and forward.  Returns the inner transport's
response paired with the request actually forwarded. -/
def apikeyRoundTrip {R : Type} (api : apikeyTransport) (socket : OutRequest → R)
    (req : OutRequest) : R × OutRequest :=
  let req' := { req with header := headerAdd req.header "Authorization" ("Basic " ++ api.digest) }
  (socket req', req')

/-! ### IAM signed-request transport (sigv4) -/

/-- A retrieved AWS credential (aws.Credentials, the fields signing
consumes). -/
structure AwsCredential where
  accessKeyID : String
  secretAccessKey : String
  sessionToken : String
deriving Repr, DecidableEq

/-- ConfigIAM over an abstract ambient-configuration type `Cfg`
(aws.Config): endpoint URL, optional role, optional external id,
optional caller-supplied configuration. -/
structure ConfigIAM (Cfg : Type) where
  url : String
  role : String
  externalID : String
  config : Option Cfg
deriving Repr, DecidableEq

/-- The state `NewTransportIAM` installs in the returned transport. -/
structure iamTransport (Cfg : Type) where
  endpoint : String
  config : Cfg
deriving Repr, DecidableEq

/-- NewTransportIAM: fail on an empty URL; resolve the ambient
configuration (caller-supplied, else the default loader's outcome
`loadDefault`); when a role is named, replace it by the outcome
`loadAssumed` of the one-time assume-role exchange. Both loaders are
external AWS SDK operations, abstracted as their outcomes. -/
def NewTransportIAM {Cfg : Type} (loadDefault : Except String Cfg)
    (loadAssumed : Except String Cfg) (spec : ConfigIAM Cfg) :
    Except String (iamTransport Cfg) :=
  if spec.url.length = 0 then .error "missing URL config"
  else
    match (match spec.config with | some c => .ok c | none => loadDefault :
           Except String Cfg) with
    | .error e => .error e
    | .ok cfg =>
        if spec.role ≠ "" then
          match loadAssumed with
          | .error e => .error e
          | .ok cfg' => .ok { endpoint := spec.url, config := cfg' }
        else .ok { endpoint := spec.url, config := cfg }

/-- The hard-coded content hash iamTransport.RoundTrip uses for a
request without a body. -/
def emptyBodyHash : String :=
  "e3b0c44298fc1c149afbf4c8996fb92427ae41e4649b934ca495991b7852b855"

/-- Trace of one iamTransport.RoundTrip call: the content hash handed
to SignHTTP (if signing was reached) and the request handed to the
inner transport (if forwarding was reached). -/
structure IamTrace where
  hashSigned : Option String
  sent : Option OutRequest
deriving Repr, DecidableEq

/-- Body step of iamTransport.RoundTrip: no body keeps the request and
uses the fixed empty hash; a body is copied while hashed (tee-read) —
a read failure aborts — and then restored, so the request forwarded
carries exactly the bytes that were hashed. -/
def iamHashBody (req : OutRequest) : Except String (String × OutRequest) :=
  match req.body with
  | none => .ok (emptyBodyHash, req)
  | some (.error e) => .error e
  | some (.ok bs) => .ok (sha256hex bs, { req with body := some (.ok bs) })

/-- iamTransport.RoundTrip: retrieve credentials, hash-and-restore the
body, sign (`sign` abstracts v4.Signer.SignHTTP, returning the headers
it would inject or its error), inject the signature headers, forward.
Returns the outcome and the call trace. -/
def iamRoundTrip {R : Type}
    (retrieve : Except String AwsCredential)
    (sign : AwsCredential → OutRequest → String → Except String (List (String × String)))
    (socket : OutRequest → R) (req : OutRequest) :
    Except String R × IamTrace :=
  match retrieve with
  | .error e => (.error e, { hashSigned := none, sent := none })
  | .ok cred =>
      match iamHashBody req with
      | .error e => (.error e, { hashSigned := none, sent := none })
      | .ok (hash, req1) =>
          match sign cred req1 hash with
          | .error e => (.error e, { hashSigned := some hash, sent := none })
          | .ok sig =>
              let req2 := sig.foldl (fun q kv => { q with header := headerAdd q.header kv.1 kv.2 }) req1
              (.ok (socket req2), { hashSigned := some hash, sent := some req2 })

/-! ### Spec-side views of a recorder run (for the finalization claim) -/

/-- The most recently set status value of an operation sequence. -/
def lastStatus : List WOp → Option Int
  | [] => none
  | .writeHeader c :: rest => some ((lastStatus rest).getD c)
  | _ :: rest => lastStatus rest

/-- The complete buffered body of an operation sequence, in order. -/
def bodyOf : List WOp → String
  | [] => ""
  | .write s :: rest => s ++ bodyOf rest
  | _ :: rest => bodyOf rest

/-- The multi-value header mapping accumulated from `h` by an operation
sequence. -/
def headersFrom (h : List (String × List String)) : List WOp → List (String × List String)
  | [] => h
  | .addHeader k v :: rest => headersFrom (headerAdd h k v) rest
  | _ :: rest => headersFrom h rest

/-- The accumulated multi-value header mapping of an operation sequence. -/
def headersOf (ops : List WOp) : List (String × List String) :=
  headersFrom [] ops

/-- Componentwise description of a recorder run from any starting state. -/
theorem applyOps_state (ops : List WOp) (w : writer) :
    applyOps ops w =
      { code := (lastStatus ops).getD w.code,
        head := headersFrom w.head ops,
        wbuf := w.wbuf ++ bodyOf ops } := by
  induction ops generalizing w with
  | nil => simp [applyOps, lastStatus, headersFrom, bodyOf]
  | cons op rest ih =>
      have step : applyOps (op :: rest) w = applyOps rest (applyOp w op) := rfl
      cases op with
      | writeHeader c =>
          simp [step, ih, applyOp, lastStatus, headersFrom, bodyOf]
      | addHeader k v =>
          simp [step, ih, applyOp, lastStatus, headersFrom, bodyOf]
      | write s =>
          simp [step, ih, applyOp, lastStatus, headersFrom, bodyOf, String.append_assoc]

/-! ### Claim theorems -/

/-- C1: for every inbound event whose httpMethod is "GET", Gateway.Serve
returns exactly the 405 response with empty headers and empty body, and
neither the envelope decoder nor the protocol-handler capability is
invoked, regardless of path, headers, query parameters, or body. -/
theorem serve_get_rejects_streaming_c1 (decode : String → Except E M)
    (parseOK : String → String → Bool) (ctrl : HttpRequest → List WOp)
    (r : APIGatewayProxyRequest) (hm : r.httpMethod = "GET") :
    Serve decode parseOK ctrl r =
      (.ok { statusCode := 405, headers := [], multiValueHeaders := [],
             body := "", isBase64Encoded := false },
       { decodeCalls := [], ctrlCalls := [] }) := by
  simp [Serve, hm]

/-- Witness for C1 at a concrete GET event with a path, headers, query
parameters and a body. -/
theorem serve_get_rejects_streaming_c1_witness :
    Serve (fun _ => (Except.error "unused" : Except String Unit)) (fun _ _ => true)
        (fun _ => [WOp.write "handler ran"])
        { httpMethod := "GET", path := "/mcp", headers := [("Accept", "text/event-stream")],
          queryStringParameters := [("session", "42")], body := "ignored",
          isBase64Encoded := false } =
      (.ok { statusCode := 405, headers := [], multiValueHeaders := [],
             body := "", isBase64Encoded := false },
       { decodeCalls := [], ctrlCalls := [] }) :=
  serve_get_rejects_streaming_c1 _ _ _ _ rfl

/-- C2: for every inbound event with a non-GET method and a non-empty
body on which the envelope decoder fails, Serve fails with the decode
error, returns no response, and the protocol-handler capability is
never invoked. -/
theorem serve_decode_failure_aborts_c2 (decode : String → Except E M)
    (parseOK : String → String → Bool) (ctrl : HttpRequest → List WOp)
    (r : APIGatewayProxyRequest) (e : E)
    (hm : r.httpMethod ≠ "GET") (hb : r.body.length ≠ 0)
    (hd : decode r.body = .error e) :
    Serve decode parseOK ctrl r =
      (.error (.protocolDecode e), { decodeCalls := [r.body], ctrlCalls := [] }) := by
  simp [Serve, hm, hb, hd]

/-- Witness for C2 at a concrete POST event whose body the decoder
rejects. -/
theorem serve_decode_failure_aborts_c2_witness :
    Serve (fun _ => (Except.error "invalid message" : Except String Unit)) (fun _ _ => true)
        (fun _ => [WOp.write "handler ran"])
        { httpMethod := "POST", path := "/mcp", headers := [], queryStringParameters := [],
          body := "not json-rpc", isBase64Encoded := false } =
      (.error (.protocolDecode "invalid message"),
       { decodeCalls := ["not json-rpc"], ctrlCalls := [] }) :=
  serve_decode_failure_aborts_c2 _ _ _ _ _ (by decide) (by decide) rfl

/-- C9: a ProxyRequest built from an event with isBase64Encoded = true
and body "SGVsbG8=" has a body stream that reads to completion as the
bytes of "Hello". -/
theorem requestBody_base64_roundtrip_c9 :
    requestBody { httpMethod := "POST", path := "/mcp", headers := [],
                  queryStringParameters := [], body := "SGVsbG8=",
                  isBase64Encoded := true } =
      .ok (asciiBytes "Hello") := by
  decide

/-- C8 (amended): finalization of any recorder run yields the status
200 when set-status was never called or when the most recently set
value is the zero sentinel, and otherwise the most recently set value
regardless of order relative to body writes; the headers are the
accumulated multi-value mapping and the body the complete buffered
content. -/
theorem writer_finalize_c8 (ops : List WOp) :
    (applyOps ops NewHttpResponse).Value =
      { statusCode :=
          match lastStatus ops with
          | none => 200
          | some c => if c = 0 then 200 else c
        headers := []
        multiValueHeaders := headersOf ops
        body := bodyOf ops
        isBase64Encoded := false } := by
  rw [applyOps_state]
  cases h : lastStatus ops with
  | none => simp [writer.Value, NewHttpResponse, headersOf]
  | some c =>
      by_cases hc : c = 0 <;>
        simp [writer.Value, NewHttpResponse, headersOf, hc]

/-- Counterexample for C8 as stated: set-status called (most recently)
with 0, yet the finalized response carries status 200, not the most
recently set value. -/
theorem writer_finalize_c8_counterexample :
    (applyOps [WOp.writeHeader 0] NewHttpResponse).Value.statusCode = 200 ∧
    (applyOps [WOp.writeHeader 0] NewHttpResponse).Value.statusCode ≠ 0 ∧
    lastStatus [WOp.writeHeader 0] = some 0 := by
  decide

/-- Modelled from the spec: the envelope decoder capability
(jsonrpc.DecodeMessage, owned externally and not part of this
repository's sources) "decodes a byte body into a structured JSON-RPC
message or fails".  Every JSON-RPC envelope is a JSON object, so its
first byte is an opening brace; this model accepts exactly the bodies
whose first byte is that brace (byte 123), a superset of the genuine
envelopes that agrees with the real decoder on the inputs used below. -/
def decodeMessageModel (s : String) : Except String Unit :=
  if (s.data.headD ' ').toNat = 123 then .ok () else .error "invalid message"

/-- C3 (amended): for every inbound event with a non-GET method and a
non-empty body the decoder accepts, Serve behaves exactly as direct
delegation of the unaltered event — the decoded envelope affects
neither the outcome nor the handler invocation; the handler (invoked
exactly when request construction succeeds) receives the request built
from the original event, whose body stream is `requestBody` of the
event, equal to the original body bytes whenever the event is not
flagged base64-encoded. -/
theorem serve_decode_observational_c3 (decode : String → Except E M)
    (parseOK : String → String → Bool) (ctrl : HttpRequest → List WOp)
    (r : APIGatewayProxyRequest) (m : M)
    (hm : r.httpMethod ≠ "GET") (hb : r.body.length ≠ 0)
    (hd : decode r.body = .ok m) :
    (Serve decode parseOK ctrl r).1 =
        (serveCtrl parseOK ctrl r).1.mapError GwErr.construction ∧
    (Serve decode parseOK ctrl r).2.ctrlCalls = (NewHttpRequest parseOK r).toList ∧
    (∀ q ∈ (Serve decode parseOK ctrl r).2.ctrlCalls, q.bodyRead = requestBody r) ∧
    (r.isBase64Encoded = false → requestBody r = .ok (asciiBytes r.body)) := by
  refine ⟨?_, ?_, ?_, ?_⟩
  · simp [Serve, hm, hb, hd]
  · simp only [Serve, hm, hb, hd]
    simp [serveCtrl]
    cases h : NewHttpRequest parseOK r <;> simp [h]
  · simp only [Serve, hm, hb, hd]
    simp [serveCtrl]
    cases h : NewHttpRequest parseOK r with
    | none => simp [h]
    | some input =>
        simp [h]
        have : input.bodyRead = requestBody r := by
          simp [NewHttpRequest] at h
          rcases h with ⟨-, h⟩
          simp [← h]
        simpa using this
  · intro hflag
    simp [requestBody, hflag]

/-- A concrete POST event carrying the JSON-RPC request
`\x7b"jsonrpc":"2.0","method":"ping","id":1\x7d`, not base64-flagged. -/
def evC3w : APIGatewayProxyRequest :=
  { httpMethod := "POST", path := "/mcp", headers := [("Content-Type", "application/json")],
    queryStringParameters := [],
    body := "\x7b\x22jsonrpc\x22:\x222.0\x22,\x22method\x22:\x22ping\x22,\x22id\x22:1\x7d",
    isBase64Encoded := false }

/-- The same JSON-RPC body, but with the base64 flag set. -/
def evC3c : APIGatewayProxyRequest :=
  { evC3w with isBase64Encoded := true }

/-- Witness for C3 at a concrete POST event with a well-formed JSON-RPC
body and the modelled decoder. -/
theorem serve_decode_observational_c3_witness :
    ((Serve decodeMessageModel (fun _ _ => true) (fun _ => [WOp.write "ok"]) evC3w).1 =
        (serveCtrl (fun _ _ => true) (fun _ => [WOp.write "ok"]) evC3w).1.mapError
          GwErr.construction ∧
     (Serve decodeMessageModel (fun _ _ => true) (fun _ => [WOp.write "ok"]) evC3w).2.ctrlCalls =
        (NewHttpRequest (fun _ _ => true) evC3w).toList ∧
     (∀ q ∈ (Serve decodeMessageModel (fun _ _ => true) (fun _ => [WOp.write "ok"])
          evC3w).2.ctrlCalls, q.bodyRead = requestBody evC3w) ∧
     (evC3w.isBase64Encoded = false → requestBody evC3w = .ok (asciiBytes evC3w.body))) :=
  serve_decode_observational_c3 _ _ _ _ () (by decide) (by decide) (by decide)

/-- Counterexample for C3 as stated: a base64-flagged event whose raw
body is a well-formed JSON-RPC envelope.  The decoder accepts it and
the handler capability is invoked, but the request's body stream is the
base64 decoding of the event body — its read fails on the corrupt
base64 input instead of yielding the original, unaltered body bytes. -/
theorem serve_decode_observational_c3_counterexample :
    decodeMessageModel evC3c.body = .ok () ∧
    evC3c.isBase64Encoded = true ∧
    ((Serve decodeMessageModel (fun _ _ => true) (fun _ => []) evC3c).2.ctrlCalls.map
        HttpRequest.bodyRead) = [.error "illegal base64 data"] ∧
    (Except.error "illegal base64 data" : Except String (List Nat)) ≠
      .ok (asciiBytes evC3c.body) := by
  decide

/-- Appending a value under a key extends exactly that key's value
list. -/
theorem getAssoc_addAssoc (h : List (String × List String)) (k v : String) :
    getAssoc (addAssoc h k v) k = getAssoc h k ++ [v] := by
  induction h with
  | nil => simp [addAssoc, getAssoc]
  | cons kv rest ih =>
      obtain ⟨k', vs⟩ := kv
      by_cases hk : k' = k <;> simp [addAssoc, getAssoc, hk, ih]

/-- C6: the shared-secret transport's digest is computed once at
construction as base64(access ++ ":" ++ secret); every RoundTrip
forwards the request to the inner transport with that digest appended
as a Basic Authorization header and otherwise unchanged, so the header
value is the same on every call; for access "access" and secret
"secret" the digest is exactly "YWNjZXNzOnNlY3JldA". -/
theorem apikey_roundtrip_c6 {R : Type} (spec : ConfigApiKey) (t : apikeyTransport)
    (hc : NewTransportApiKey spec = .ok t) (socket : OutRequest → R) (req : OutRequest) :
    t.digest = base64RawStdEncodeToString (asciiBytes (spec.access ++ ":" ++ spec.secret)) ∧
    (apikeyRoundTrip t socket req).2 =
      { req with header := headerAdd req.header "Authorization" ("Basic " ++ t.digest) } ∧
    (apikeyRoundTrip t socket req).1 =
      socket { req with header := headerAdd req.header "Authorization" ("Basic " ++ t.digest) } ∧
    (spec.access = "access" → spec.secret = "secret" →
      "Basic " ++ t.digest = "Basic YWNjZXNzOnNlY3JldA") := by
  have hd : t.digest =
      base64RawStdEncodeToString (asciiBytes (spec.access ++ ":" ++ spec.secret)) := by
    simp only [NewTransportApiKey] at hc
    split at hc
    · cases hc
    · cases hc
      rfl
  refine ⟨hd, rfl, rfl, ?_⟩
  intro ha hs
  rw [hd, ha, hs]
  decide

/-- Concrete shared-secret configuration for the C6 witness. -/
def specC6 : ConfigApiKey :=
  { url := "https://mcp.example.com", access := "access", secret := "secret" }

/-- The transport `NewTransportApiKey specC6` returns. -/
def tC6 : apikeyTransport :=
  { endpoint := "https://mcp.example.com", digest := "YWNjZXNzOnNlY3JldA" }

/-- A concrete outbound request that already carries headers. -/
def reqC6 : OutRequest :=
  { method := "POST", path := "/mcp", header := [("Content-Type", ["application/json"])],
    body := some (.ok [123, 125]) }

/-- The request C6 predicts the inner transport receives. -/
def sentC6 : OutRequest :=
  { reqC6 with
      header := headerAdd reqC6.header "Authorization" ("Basic " ++ tC6.digest) }

/-- Witness for C6 at the concrete credentials "access"/"secret" and a
request that already carries headers and a body. -/
theorem apikey_roundtrip_c6_witness :
    tC6.digest = base64RawStdEncodeToString (asciiBytes (specC6.access ++ ":" ++ specC6.secret)) ∧
    (apikeyRoundTrip tC6 OutRequest.header reqC6).2 = sentC6 ∧
    (apikeyRoundTrip tC6 OutRequest.header reqC6).1 = OutRequest.header sentC6 ∧
    (specC6.access = "access" → specC6.secret = "secret" →
      "Basic " ++ tC6.digest = "Basic YWNjZXNzOnNlY3JldA") :=
  apikey_roundtrip_c6 specC6 tC6 (by decide) OutRequest.header reqC6

/-- C10: the shared-secret transport appends its Basic digest to the
Authorization header rather than replacing it — the forwarded request
carries every pre-existing Authorization value followed by the appended
Basic digest value. -/
theorem apikey_authorization_appended_c10 {R : Type} (api : apikeyTransport)
    (socket : OutRequest → R) (req : OutRequest) :
    headerGet (apikeyRoundTrip api socket req).2.header "Authorization" =
      headerGet req.header "Authorization" ++ ["Basic " ++ api.digest] := by
  simp [apikeyRoundTrip, headerGet, headerAdd, getAssoc_addAssoc]

/-- C7 (amended): construction fails with the missing-URL ConfigError
exactly when the endpoint URL is empty — for both variants an empty URL
yields the error and no transport; the shared-secret variant does not
validate Access or Secret, so with any non-empty URL it succeeds, even
with empty keys, folding them into the digest. -/
theorem transport_config_url_required_c7 {Cfg : Type} (spec : ConfigApiKey)
    (speci : ConfigIAM Cfg) (loadDefault loadAssumed : Except String Cfg) :
    (spec.url.length = 0 → NewTransportApiKey spec = .error "missing URL config") ∧
    (spec.url.length ≠ 0 → NewTransportApiKey spec =
       .ok { endpoint := spec.url,
             digest := base64RawStdEncodeToString
               (asciiBytes (spec.access ++ ":" ++ spec.secret)) }) ∧
    (speci.url.length = 0 →
       NewTransportIAM loadDefault loadAssumed speci = .error "missing URL config") := by
  refine ⟨fun h => ?_, fun h => ?_, fun h => ?_⟩
  · simp [NewTransportApiKey, h]
  · simp [NewTransportApiKey, h, base64RawStdEncodeToString]
  · simp [NewTransportIAM, h]

/-- A shared-secret configuration with an empty endpoint URL. -/
def specC7empty : ConfigApiKey := { url := "", access := "access", secret := "secret" }

/-- A shared-secret configuration with a non-empty endpoint URL. -/
def specC7ok : ConfigApiKey := specC6

/-- An IAM configuration (over a trivial ambient-configuration type)
with an empty endpoint URL. -/
def specC7iam : ConfigIAM Unit := { url := "", role := "", externalID := "", config := none }

/-- Witness for C7: both constructors at an empty URL, and the
shared-secret constructor at a non-empty URL. -/
theorem transport_config_url_required_c7_witness :
    NewTransportApiKey specC7empty = .error "missing URL config" ∧
    NewTransportIAM (.ok ()) (.ok ()) specC7iam = .error "missing URL config" ∧
    NewTransportApiKey specC7ok =
      .ok { endpoint := specC7ok.url,
            digest := base64RawStdEncodeToString
              (asciiBytes (specC7ok.access ++ ":" ++ specC7ok.secret)) } :=
  ⟨(transport_config_url_required_c7 specC7empty specC7iam (.ok ()) (.ok ())).1 (by decide),
   (transport_config_url_required_c7 specC7empty specC7iam (.ok ()) (.ok ())).2.2 (by decide),
   (transport_config_url_required_c7 specC7ok specC7iam (.ok ()) (.ok ())).2.1 (by decide)⟩

/-- Counterexample for C7 as stated: the shared-secret constructor with
empty Access and Secret keys succeeds and returns a transport (digest
base64(":") = "Og") instead of failing with a ConfigError. -/
theorem transport_config_url_required_c7_counterexample :
    NewTransportApiKey { url := "https://mcp.example.com", access := "", secret := "" } =
      .ok { endpoint := "https://mcp.example.com", digest := "Og" } := by
  decide

set_option maxRecDepth 10000 in
/-- The hard-coded no-body content hash in iamTransport.RoundTrip is
the SHA-256 digest of the empty byte sequence. -/
theorem emptyBodyHash_eq_sha256_nil : emptyBodyHash = sha256hex [] := by
  decide

/-- C4: through the signed-request transport's RoundTrip, a request
without a body is signed over the SHA-256 hash of the empty byte
sequence, and for a request with a body the bytes forwarded to the
inner transport are byte-identical to the bytes that were hashed — the
original body bytes (hash-then-restore round trip). -/
theorem iam_roundtrip_hash_restore_c4 {R : Type} (cred : AwsCredential)
    (sign : AwsCredential → OutRequest → String → Except String (List (String × String)))
    (socket : OutRequest → R) (req : OutRequest) :
    (req.body = none →
      (iamRoundTrip (.ok cred) sign socket req).2.hashSigned = some (sha256hex [])) ∧
    (∀ bs, req.body = some (.ok bs) →
      (iamRoundTrip (.ok cred) sign socket req).2.hashSigned = some (sha256hex bs) ∧
      ∀ q, (iamRoundTrip (.ok cred) sign socket req).2.sent = some q →
        q.body = some (.ok bs)) := by
  constructor
  · intro hb
    simp only [iamRoundTrip, iamHashBody, hb]
    cases h : sign cred req emptyBodyHash <;>
      simp [h, emptyBodyHash_eq_sha256_nil]
  · intro bs hb
    simp only [iamRoundTrip, iamHashBody, hb]
    cases hs : sign cred { req with body := some (.ok bs) } (sha256hex bs) with
    | error e => simp [hs]
    | ok sig =>
        refine ⟨by simp [hs], fun q hq => ?_⟩
        simp only [hs, Option.some.injEq] at hq
        subst hq
        have : ∀ (l : List (String × String)) (q0 : OutRequest),
            (l.foldl (fun q kv => { q with header := headerAdd q.header kv.1 kv.2 }) q0).body
              = q0.body := by
          intro l
          induction l with
          | nil => intro q0; rfl
          | cons kv rest ih => intro q0; simpa using ih _
        simp [this]

/-- A concrete retrieved credential for the IAM witnesses. -/
def credW : AwsCredential :=
  { accessKeyID := "AKIDEXAMPLE", secretAccessKey := "wJalrXUtnFEMI", sessionToken := "" }

/-- A signer outcome that injects one signature header. -/
def signW (_ : AwsCredential) (_ : OutRequest) (hash : String) :
    Except String (List (String × String)) :=
  .ok [("X-Amz-Content-Sha256", hash)]

/-- A signer outcome that fails. -/
def signBadW (_ : AwsCredential) (_ : OutRequest) (_ : String) :
    Except String (List (String × String)) :=
  .error "signature failed"

/-- A concrete inner transport observing the forwarded request. -/
def socketW (q : OutRequest) : OutRequest := q

/-- A concrete outbound request without a body. -/
def reqNoBody : OutRequest :=
  { method := "POST", path := "/mcp", header := [], body := none }

/-- A concrete outbound request whose body reads as the bytes of "hi". -/
def reqWithBody : OutRequest :=
  { method := "POST", path := "/mcp", header := [], body := some (.ok [104, 105]) }

/-- A concrete outbound request whose body read fails. -/
def reqBadBody : OutRequest :=
  { method := "POST", path := "/mcp", header := [], body := some (.error "read failed") }

/-- Witness for C4: a body-less request is signed over the empty-input
SHA-256 digest, and a request with body bytes [104, 105] is forwarded
with exactly those bytes. -/
theorem iam_roundtrip_hash_restore_c4_witness :
    ((iamRoundTrip (.ok credW) signW socketW reqNoBody).2.hashSigned =
        some (sha256hex []) ∧
     (iamRoundTrip (.ok credW) signW socketW reqWithBody).2.hashSigned =
        some (sha256hex [104, 105]) ∧
     ∀ q, (iamRoundTrip (.ok credW) signW socketW reqWithBody).2.sent = some q →
        q.body = some (.ok [104, 105])) :=
  ⟨(iam_roundtrip_hash_restore_c4 credW signW socketW reqNoBody).1 rfl,
   ((iam_roundtrip_hash_restore_c4 credW signW socketW reqWithBody).2 [104, 105] rfl).1,
   ((iam_roundtrip_hash_restore_c4 credW signW socketW reqWithBody).2 [104, 105] rfl).2⟩

/-- C5: through the signed-request transport's RoundTrip, a credential
retrieval failure, a body re-buffering failure, or a signing failure is
returned to the caller unchanged and the inner forwarding capability is
never invoked — no request reaches the network. -/
theorem iam_roundtrip_failure_aborts_c5 {R : Type} (retrieve : Except String AwsCredential)
    (sign : AwsCredential → OutRequest → String → Except String (List (String × String)))
    (socket : OutRequest → R) (req : OutRequest) :
    (∀ e, retrieve = .error e →
      iamRoundTrip retrieve sign socket req =
        (.error e, { hashSigned := none, sent := none })) ∧
    (∀ cred e, retrieve = .ok cred → req.body = some (.error e) →
      iamRoundTrip retrieve sign socket req =
        (.error e, { hashSigned := none, sent := none })) ∧
    (∀ cred e hash req1, retrieve = .ok cred → iamHashBody req = .ok (hash, req1) →
      sign cred req1 hash = .error e →
      iamRoundTrip retrieve sign socket req =
        (.error e, { hashSigned := some hash, sent := none })) := by
  refine ⟨fun e he => ?_, fun cred e hr hb => ?_, fun cred e hash req1 hr hh hs => ?_⟩
  · simp [iamRoundTrip, he]
  · simp [iamRoundTrip, iamHashBody, hr, hb]
  · simp [iamRoundTrip, hr, hh, hs]

/-- Witness for C5: each of the three failure modes at concrete inputs
— failed retrieval, a body whose read fails, and a signer that fails. -/
theorem iam_roundtrip_failure_aborts_c5_witness :
    (iamRoundTrip (.error "no credentials") signW socketW reqWithBody =
       (.error "no credentials", { hashSigned := none, sent := none }) ∧
     iamRoundTrip (.ok credW) signW socketW reqBadBody =
       (.error "read failed", { hashSigned := none, sent := none }) ∧
     iamRoundTrip (.ok credW) signBadW socketW reqNoBody =
       (.error "signature failed", { hashSigned := some emptyBodyHash, sent := none })) :=
  ⟨(iam_roundtrip_failure_aborts_c5 (.error "no credentials") signW socketW
      reqWithBody).1 "no credentials" rfl,
   (iam_roundtrip_failure_aborts_c5 (.ok credW) signW socketW reqBadBody).2.1
      credW "read failed" rfl rfl,
   (iam_roundtrip_failure_aborts_c5 (.ok credW) signBadW socketW reqNoBody).2.2
      credW "signature failed" emptyBodyHash reqNoBody rfl rfl rfl⟩

end CloudMCP
